import Mathlib

/-!
Shallow embedding of the `confirmation` package of kalensk/promptkit
(src/confirmation/prompt.go). The interactive model and controller live in
model.go, which is not part of src/; those parts are modelled from the spec
and marked as such. External collaborators (the text/template engine, the
bubbletea event loop, promptkit.Wrap, fmt.Fprint) are abstracted as an
environment of oracles fed into the embedded RunPrompt.
-/

namespace Promptkit

/-- `Value` is the value of the confirmation prompt (Go: `type Value *bool`):
a nullable boolean. `Yes = some true`, `No = some false`, `Undecided = none`
mirror the three sentinel values of prompt.go lines 48-61. -/
abbrev Value := Option Bool

/-- The `Yes` sentinel (corresponds to `true`). -/
def Value.Yes : Value := some true

/-- The `No` sentinel (corresponds to `false`). -/
def Value.No : Value := some false

/-- The `Undecided` sentinel (the nil pointer). -/
def Value.Undecided : Value := none

/-- Termination status of one prompt run (spec section 4.2: the second
component of the controller state). -/
inductive Termination
  | running
  | submitted
  | aborted
deriving DecidableEq, Repr

/-- Modelled from the spec: the mutable run state of the interactive model
(model.go is not under src/). It carries the prompt text, the configured
default, the live tri-state value, the termination flag and the terminal
width (spec sections 3 RunState and 4.2). -/
structure Model where
  Prompt : String
  DefaultValue : Value
  value : Value
  termination : Termination
  width : Nat
deriving DecidableEq, Repr

/-- Modelled from the spec: the coercion from tri-state `Value` to a concrete
boolean decision, applied at Submit time: Yes to true, No to false, Undecided
to false (spec sections 4.2 and 7). -/
def coerce (v : Value) : Bool := v.getD false

/-- Modelled from the spec: `Model.Value()` of model.go (not under src/).
After the loop, an aborted run reports the abort error; otherwise the
tri-state value is coerced, Undecided becoming false with no error
(spec sections 4.2, 4.4 and 7 AbortError). -/
def Model.Value (m : Model) : Except String Bool :=
  match m.termination with
  | .aborted => .error "aborted"
  | _ => .ok (coerce m.value)

/-- The five logical actions of the key map (spec section 2). -/
inductive Action
  | selectYes
  | selectNo
  | toggle
  | submit
  | abort
deriving DecidableEq, Repr

/-- Modelled from the spec: the Toggle transition on values, which flips Yes
and No and leaves Undecided unchanged (model.go is not under src/; spec
section 4.2). -/
def toggle : Value → Value
  | some b => some (!b)
  | none => none

/-- Modelled from the spec: the controller update on a running state, mapping
one logical action and the current value to the next value and termination
signal (model.go is not under src/; spec section 4.2). -/
def Controller.update (a : Action) (v : Value) : Value × Termination :=
  match a with
  | .selectYes => (Value.Yes, .running)
  | .selectNo => (Value.No, .running)
  | .toggle => (toggle v, .running)
  | .submit => (v, .submitted)
  | .abort => (v, .aborted)

/-- Identifies an output stream: the process standard output, or a distinct
caller-supplied writer. -/
inductive StreamId
  | stdout
  | custom (n : Nat)
deriving DecidableEq, Repr

/-- The wrapped errors RunPrompt can return, one constructor per
`fmt.Errorf` site of prompt.go (lines 146, 153, 158, 177) plus the raw
`fmt.Fprint` error of line 180. -/
inductive GoError
  | templateInit (msg : String)
  | runError (msg : String)
  | valueRead (msg : String)
  | templateExec (msg : String)
  | writeError (msg : String)
deriving DecidableEq, Repr

/-- The data map handed to the confirmed template (prompt.go lines 167-175). -/
structure ConfirmationData where
  FinalValue : Bool
  FinalValueString : String
  Prompt : String
  DefaultYes : Bool
  DefaultNo : Bool
  DefaultUndecided : Bool
  TerminalWidth : Nat
deriving DecidableEq, Repr

/-- The `Confirmation` configuration (prompt.go lines 63-126); the key map,
the extended template scope and the input stream play no role in the claims
and enter only through the environment oracles. -/
structure Confirmation where
  Prompt : String
  DefaultValue : Value
  Template : String
  ConfirmationTemplate : String
  Output : StreamId

/-- Outcomes of the external collaborators of one RunPrompt call: the
template engine (`parse` for `template.Parse`, `exec` for `tmpl.Execute`,
both on the confirmed template string), the bubbletea program (`start` maps
the initial model to the final model or a start error, `startWrites` is the
live rendering the loop writes to the configured output), `wrap` for
`promptkit.Wrap`, and `fprintErr` for a failure of the final `fmt.Fprint`. -/
structure Env where
  parse : String → Except String Unit
  exec : String → ConfirmationData → Except String String
  start : Model → Except String Model
  startWrites : List String
  wrap : String → Nat → String
  fprintErr : Option String

/-- Modelled from the spec: `NewModel` of model.go (not under src/) — the
initial controller state is (DefaultValue, Running) with the configured
prompt (spec section 4.2). -/
def NewModel (c : Confirmation) : Model :=
  { Prompt := c.Prompt
  , DefaultValue := c.DefaultValue
  , value := c.DefaultValue
  , termination := .running
  , width := 0 }

/-- Embeds `initConfirmationTemplate` (prompt.go lines 185-196): an empty
confirmed template yields no template at all (nil, nil); otherwise the
template string is parsed by the engine. -/
def Confirmation.initConfirmationTemplate (c : Confirmation) (env : Env) :
    Except String (Option String) :=
  if c.ConfirmationTemplate = "" then .ok none
  else
    match env.parse c.ConfirmationTemplate with
    | .error e => .error e
    | .ok _ => .ok (some c.ConfirmationTemplate)

/-- Builds the data map of prompt.go lines 167-175: `FinalValueString` is
`fmt.Sprintf "%v"` of the boolean, and the three Default booleans compare
the model default against the sentinels. -/
def confirmationData (m : Model) (value : Bool) : ConfirmationData :=
  { FinalValue := value
  , FinalValueString := toString value
  , Prompt := m.Prompt
  , DefaultYes := m.DefaultValue == Value.Yes
  , DefaultNo := m.DefaultValue == Value.No
  , DefaultUndecided := m.DefaultValue == Value.Undecided
  , TerminalWidth := m.width }

/-- The observable outcome of a RunPrompt call: the returned boolean, the
returned error, and every write performed, in order, as (stream, text). -/
structure RunResult where
  value : Bool
  err : Option GoError
  writes : List (StreamId × String)
deriving DecidableEq, Repr

/-- Embeds `Confirmation.RunPrompt` (prompt.go lines 143-183). The live
rendering of the event loop goes to the configured output stream
(`tea.WithOutput(c.Output)`, line 151); the confirmed render is executed
into a buffer (lines 165-175) and, on success, written wrapped by
`fmt.Fprint(os.Stdout, ...)` (line 180). -/
def Confirmation.RunPrompt (c : Confirmation) (env : Env) : RunResult :=
  match c.initConfirmationTemplate env with
  | .error e => ⟨false, some (.templateInit e), []⟩
  | .ok _ =>
    match env.start (NewModel c) with
    | .error e => ⟨false, some (.runError e), env.startWrites.map fun s => (c.Output, s)⟩
    | .ok m =>
      match m.Value with
      | .error e => ⟨false, some (.valueRead e), env.startWrites.map fun s => (c.Output, s)⟩
      | .ok value =>
        if c.ConfirmationTemplate = "" then
          ⟨value, none, env.startWrites.map fun s => (c.Output, s)⟩
        else
          match env.exec c.ConfirmationTemplate (confirmationData m value) with
          | .error e =>
            ⟨value, some (.templateExec e), env.startWrites.map fun s => (c.Output, s)⟩
          | .ok rendered =>
            ⟨value, env.fprintErr.map GoError.writeError,
              (env.startWrites.map fun s => (c.Output, s))
                ++ [(StreamId.stdout, env.wrap rendered m.width)]⟩

/-- True when an Except value is a success. -/
def exceptOk {ε α : Type} : Except ε α → Bool
  | .ok _ => true
  | .error _ => false

/-- The confirmed template was configured and failed to parse. -/
def parseFails (env : Env) (c : Confirmation) : Bool :=
  c.ConfirmationTemplate != "" && !exceptOk (env.parse c.ConfirmationTemplate)

/-- The event loop failed to start or communicate with the terminal. -/
def loopFails (env : Env) (c : Confirmation) : Bool :=
  !exceptOk (env.start (NewModel c))

/-- The loop ended with the user having aborted. -/
def userAborts (env : Env) (c : Confirmation) : Bool :=
  match env.start (NewModel c) with
  | .ok m => m.termination == .aborted
  | .error _ => false

/-- The confirmed template was configured and its execution on the final
data map failed. -/
def execFails (env : Env) (c : Confirmation) : Bool :=
  match env.start (NewModel c) with
  | .ok m =>
    match m.Value with
    | .ok value =>
      c.ConfirmationTemplate != "" &&
        !exceptOk (env.exec c.ConfirmationTemplate (confirmationData m value))
    | .error _ => false
  | .error _ => false

/-- The confirmed render was produced and the final write of it failed. -/
def writeFails (env : Env) (c : Confirmation) : Bool :=
  match env.start (NewModel c) with
  | .ok m =>
    match m.Value with
    | .ok value =>
      c.ConfirmationTemplate != "" &&
        exceptOk (env.exec c.ConfirmationTemplate (confirmationData m value)) &&
        env.fprintErr.isSome
    | .error _ => false
  | .error _ => false

/-- A sample configuration that keeps the default standard output stream and
configures a confirmed template. -/
def cStd : Confirmation :=
  { Prompt := "ok?"
  , DefaultValue := Value.Undecided
  , Template := ""
  , ConfirmationTemplate := "T"
  , Output := StreamId.stdout }

/-- The sample configuration with a caller-overridden output stream. -/
def cBug : Confirmation := { cStd with Output := StreamId.custom 0 }

/-- The sample configuration with an empty confirmed template. -/
def cEmpty : Confirmation := { cStd with ConfirmationTemplate := "" }

/-- A sample environment where every collaborator succeeds and the loop ends
submitted with Yes selected. -/
def envOk : Env :=
  { parse := fun _ => .ok ()
  , exec := fun _ _ => .ok "CONFIRMED"
  , start := fun m0 => .ok { m0 with value := Value.Yes, termination := Termination.submitted }
  , startWrites := ["live"]
  , wrap := fun s _ => s
  , fprintErr := none }

/-- The sample environment with the loop ending submitted while the value is
still the configured default. -/
def envUndecided : Env :=
  { envOk with start := fun m0 => .ok { m0 with termination := Termination.submitted } }

/-- The sample environment with the user aborting while Yes was selected. -/
def envAbortYes : Env :=
  { envOk with start := fun m0 => .ok { m0 with value := Value.Yes, termination := Termination.aborted } }

/-- The sample environment with a failing confirmed-template execution. -/
def envExecErr : Env := { envOk with exec := fun _ _ => .error "boom" }

/-- The sample environment with a confirmed template that fails to parse. -/
def envParseErr : Env := { envOk with parse := fun _ => .error "bad" }

/-- The sample environment where the final write of the confirmed render
fails. -/
def envWriteErr : Env := { envOk with fprintErr := some "broken pipe" }

/-- The final model of `envOk.start` on the sample configuration. -/
def mYes : Model :=
  { Prompt := "ok?", DefaultValue := Value.Undecided, value := Value.Yes
  , termination := Termination.submitted, width := 0 }

/-- The final model of `envUndecided.start` on the sample configuration. -/
def mUndecided : Model :=
  { Prompt := "ok?", DefaultValue := Value.Undecided, value := Value.Undecided
  , termination := Termination.submitted, width := 0 }

/-- The final model of `envAbortYes.start` on the sample configuration. -/
def mAbortYes : Model :=
  { Prompt := "ok?", DefaultValue := Value.Undecided, value := Value.Yes
  , termination := Termination.aborted, width := 0 }

/-- Claim C8: for every model state and final boolean, exactly one of the
three booleans DefaultYes, DefaultNo, DefaultUndecided computed for the
confirmed-template data map is true: the tri-state Value admits no
simultaneous Yes and No, and Undecided is a first-class third state. -/
theorem C8_default_booleans_exactly_one (m : Model) (value : Bool) :
    ((confirmationData m value).DefaultYes).toNat
      + ((confirmationData m value).DefaultNo).toNat
      + ((confirmationData m value).DefaultUndecided).toNat = 1 := by
  rcases m with ⟨p, d, v, t, w⟩
  rcases d with _ | b
  · rfl
  · cases b <;> rfl

/-- Claim C9: Toggle is a no-op on Undecided, an involution on the decided
values, and the controller leaves the termination state Running in all three
cases. -/
theorem C9_toggle_noop_involution_running :
    toggle Value.Undecided = Value.Undecided ∧
    toggle (toggle Value.Yes) = Value.Yes ∧
    toggle (toggle Value.No) = Value.No ∧
    Controller.update Action.toggle Value.Undecided = (Value.Undecided, Termination.running) ∧
    Controller.update Action.toggle Value.Yes = (Value.No, Termination.running) ∧
    Controller.update Action.toggle Value.No = (Value.Yes, Termination.running) := by
  decide

/-- Claim C1 (code bug): in a run that ends Submitted with a non-empty
confirmed template whose execution succeeds, and whose configured output
stream is a custom writer distinct from standard output, the rendered
confirmed text is written to standard output (prompt.go line 180 uses
`fmt.Fprint(os.Stdout, ...)`) and nothing is written to the configured
output stream beyond the live rendering. -/
theorem C1_confirmed_render_written_to_stdout :
    cBug.Output = StreamId.custom 0 ∧
    (cBug.RunPrompt envOk).err = none ∧
    (cBug.RunPrompt envOk).value = true ∧
    (cBug.RunPrompt envOk).writes =
      [(StreamId.custom 0, "live"), (StreamId.stdout, "CONFIRMED")] := by
  decide

/-- Claim C6: if the confirmed template is configured and fails to parse,
RunPrompt returns (false, TemplateInitError) before the interactive loop
starts, and nothing at all is written to any output stream. -/
theorem C6_parse_failure_no_ui (env : Env) (c : Confirmation) (e : String)
    (hne : c.ConfirmationTemplate ≠ "")
    (hparse : env.parse c.ConfirmationTemplate = .error e) :
    c.RunPrompt env =
      { value := false, err := some (GoError.templateInit e), writes := [] } := by
  unfold Confirmation.RunPrompt Confirmation.initConfirmationTemplate
  rw [if_neg hne, hparse]

/-- Witness for C6 at a parse failure of the sample template. -/
theorem C6_parse_failure_no_ui_witness :
    cStd.RunPrompt envParseErr =
      { value := false, err := some (GoError.templateInit "bad"), writes := [] } :=
  C6_parse_failure_no_ui envParseErr cStd "bad" (by decide) rfl

/-- Claim C4: when the confirmed template parses but its execution fails
after a decided value was read, RunPrompt still returns that decided value,
paired with the execution error: the decision is not discarded. -/
theorem C4_exec_error_keeps_decision (env : Env) (c : Confirmation) (m : Model)
    (value : Bool) (e : String)
    (hne : c.ConfirmationTemplate ≠ "")
    (hparse : env.parse c.ConfirmationTemplate = .ok ())
    (hstart : env.start (NewModel c) = .ok m)
    (hval : m.Value = .ok value)
    (hexec : env.exec c.ConfirmationTemplate (confirmationData m value) = .error e) :
    (c.RunPrompt env).value = value ∧
    (c.RunPrompt env).err = some (GoError.templateExec e) := by
  unfold Confirmation.RunPrompt Confirmation.initConfirmationTemplate
  simp only [if_neg hne, hparse, hstart, hval, hexec]
  exact ⟨trivial, trivial⟩

/-- Witness for C4 at a concrete failing execution after a Yes decision. -/
theorem C4_exec_error_keeps_decision_witness :
    (cStd.RunPrompt envExecErr).value = true ∧
    (cStd.RunPrompt envExecErr).err = some (GoError.templateExec "boom") :=
  C4_exec_error_keeps_decision envExecErr cStd mYes true "boom"
    (by decide) rfl rfl rfl rfl

/-- Claim C10: when the confirmed template execution fails, no
confirmed-render bytes are written to any stream: the render goes into an
internal buffer first and is flushed only on successful execution, so the
writes are exactly the live rendering of the loop. -/
theorem C10_no_confirmed_bytes_on_exec_error (env : Env) (c : Confirmation)
    (m : Model) (value : Bool) (e : String)
    (hne : c.ConfirmationTemplate ≠ "")
    (hparse : env.parse c.ConfirmationTemplate = .ok ())
    (hstart : env.start (NewModel c) = .ok m)
    (hval : m.Value = .ok value)
    (hexec : env.exec c.ConfirmationTemplate (confirmationData m value) = .error e) :
    (c.RunPrompt env).writes = env.startWrites.map fun s => (c.Output, s) := by
  unfold Confirmation.RunPrompt Confirmation.initConfirmationTemplate
  simp only [if_neg hne, hparse, hstart, hval, hexec]

/-- Witness for C10 at a concrete failing execution. -/
theorem C10_no_confirmed_bytes_on_exec_error_witness :
    (cStd.RunPrompt envExecErr).writes =
      envExecErr.startWrites.map fun s => (cStd.Output, s) :=
  C10_no_confirmed_bytes_on_exec_error envExecErr cStd mYes true "boom"
    (by decide) rfl rfl rfl rfl

/-- Claim C7: with an empty confirmed template, a submitted run returns the
coerced decision with a nil error and writes nothing beyond the live
rendering of the loop. -/
theorem C7_empty_confirmed_template (env : Env) (c : Confirmation) (m : Model)
    (hempty : c.ConfirmationTemplate = "")
    (hstart : env.start (NewModel c) = .ok m)
    (hsub : m.termination = .submitted) :
    c.RunPrompt env =
      { value := coerce m.value, err := none
      , writes := env.startWrites.map fun s => (c.Output, s) } := by
  unfold Confirmation.RunPrompt Confirmation.initConfirmationTemplate
  simp only [if_pos hempty, hstart, Model.Value, hsub]

/-- Witness for C7 at a concrete submitted run with an empty template. -/
theorem C7_empty_confirmed_template_witness :
    cEmpty.RunPrompt envUndecided =
      { value := coerce mUndecided.value, err := none
      , writes := envUndecided.startWrites.map fun s => (cEmpty.Output, s) } :=
  C7_empty_confirmed_template envUndecided cEmpty mUndecided rfl rfl rfl

/-- Claim C5: whenever the loop ends Aborted, whatever the value held at
that moment, RunPrompt returns false together with a non-nil cancellation
error (the abort surfacing through the value read, prompt.go line 158). -/
theorem C5_abort_returns_false_and_error (env : Env) (c : Confirmation) (m : Model)
    (hinit : exceptOk (c.initConfirmationTemplate env) = true)
    (hstart : env.start (NewModel c) = .ok m)
    (habort : m.termination = .aborted) :
    (c.RunPrompt env).value = false ∧
    (c.RunPrompt env).err = some (GoError.valueRead "aborted") := by
  unfold Confirmation.RunPrompt
  rcases hI : c.initConfirmationTemplate env with e | t
  · rw [hI] at hinit
    simp [exceptOk] at hinit
  · simp [hI, hstart, Model.Value, habort]

/-- Witness for C5 at a concrete aborted run holding the Yes value. -/
theorem C5_abort_returns_false_and_error_witness :
    (cStd.RunPrompt envAbortYes).value = false ∧
    (cStd.RunPrompt envAbortYes).err = some (GoError.valueRead "aborted") :=
  C5_abort_returns_false_and_error envAbortYes cStd mAbortYes rfl rfl rfl

/-- Claim C2: when the loop ends Submitted, RunPrompt returns the coercion
of the value held at submit time — Yes to true, No to false, Undecided to
false — and Undecided by itself causes no error: with an empty confirmed
template the returned error is nil. -/
theorem C2_submit_returns_coercion (env : Env) (c : Confirmation) (m : Model)
    (hinit : exceptOk (c.initConfirmationTemplate env) = true)
    (hstart : env.start (NewModel c) = .ok m)
    (hsub : m.termination = .submitted) :
    (c.RunPrompt env).value = coerce m.value ∧
    coerce Value.Yes = true ∧ coerce Value.No = false ∧ coerce Value.Undecided = false ∧
    (c.ConfirmationTemplate = "" → (c.RunPrompt env).err = none) := by
  refine ⟨?_, rfl, rfl, rfl, ?_⟩
  · unfold Confirmation.RunPrompt
    rcases hI : c.initConfirmationTemplate env with e | t
    · rw [hI] at hinit
      simp [exceptOk] at hinit
    · simp only [hI, hstart, Model.Value, hsub]
      by_cases hT : c.ConfirmationTemplate = ""
      · simp [hT]
      · rcases hE : env.exec c.ConfirmationTemplate (confirmationData m (coerce m.value)) with
          e | r <;> simp [hT, hE]
  · intro hT
    unfold Confirmation.RunPrompt
    rcases hI : c.initConfirmationTemplate env with e | t
    · rw [hI] at hinit
      simp [exceptOk] at hinit
    · simp [hI, hstart, Model.Value, hsub, hT]

/-- Witness for C2 at a concrete submitted run still Undecided, with an
empty confirmed template. -/
theorem C2_submit_returns_coercion_witness :
    (cEmpty.RunPrompt envUndecided).value = coerce mUndecided.value ∧
    coerce Value.Yes = true ∧ coerce Value.No = false ∧ coerce Value.Undecided = false ∧
    (cEmpty.ConfirmationTemplate = "" → (cEmpty.RunPrompt envUndecided).err = none) :=
  C2_submit_returns_coercion envUndecided cEmpty mUndecided rfl rfl rfl

/-- Claim C3 counterexample: a run in which the confirmed template parses
and executes, the loop succeeds, the user did not abort — yet RunPrompt
returns a non-nil error, because the final write of the confirmed render
failed. The error sources listed by the claim are not exhaustive. -/
theorem C3_counterexample_write_error :
    (cStd.RunPrompt envWriteErr).err = some (GoError.writeError "broken pipe") ∧
    parseFails envWriteErr cStd = false ∧
    loopFails envWriteErr cStd = false ∧
    userAborts envWriteErr cStd = false ∧
    execFails envWriteErr cStd = false := by
  decide

/-- Claim C3 (amended): the returned error is non-nil exactly when the
confirmed template failed to parse, the event loop failed, the user
aborted, the confirmed template failed to execute, or the final write of
the rendered confirmed text to standard output failed. -/
theorem C3_error_iff_causes (env : Env) (c : Confirmation) :
    (c.RunPrompt env).err ≠ none ↔
      (parseFails env c = true ∨ loopFails env c = true ∨ userAborts env c = true ∨
        execFails env c = true ∨ writeFails env c = true) := by
  unfold Confirmation.RunPrompt Confirmation.initConfirmationTemplate parseFails
    loopFails userAborts execFails writeFails
  by_cases hT : c.ConfirmationTemplate = ""
  · rcases hS : env.start (NewModel c) with eS | m
    · simp [hT, hS, exceptOk]
    · rcases hA : m.termination with _ | _ | _ <;>
        simp [hT, hS, hA, Model.Value, exceptOk]
  · rcases hP : env.parse c.ConfirmationTemplate with eP | u
    · simp [hT, hP, exceptOk]
    · rcases hS : env.start (NewModel c) with eS | m
      · simp [hT, hP, hS, exceptOk]
      · rcases hA : m.termination with _ | _ | _
        · rcases hE : env.exec c.ConfirmationTemplate (confirmationData m (coerce m.value)) with
            eE | r
          · simp [hT, hP, hS, hA, hE, Model.Value, exceptOk]
          · rcases hF : env.fprintErr with _ | w <;>
              simp [hT, hP, hS, hA, hE, hF, Model.Value, exceptOk]
        · rcases hE : env.exec c.ConfirmationTemplate (confirmationData m (coerce m.value)) with
            eE | r
          · simp [hT, hP, hS, hA, hE, Model.Value, exceptOk]
          · rcases hF : env.fprintErr with _ | w <;>
              simp [hT, hP, hS, hA, hE, hF, Model.Value, exceptOk]
        · simp [hT, hP, hS, hA, Model.Value, exceptOk]

end Promptkit
